import Mathlib

/-!
Verification of the execution control loop of the `Finance` live-trading
repository (`trader.py`, `oanda_live_trader.py`, `main.py`).

The embedding models prices and pip distances as exact rationals.  Python
float cells that may hold NaN are modelled by `PyFloat`; dataframe cells
that may hold Python `None` are modelled by `Option PyFloat`.  Fallible
calls are modelled with `Option`; an exception that reaches the per-tick
`try` of `OandaTrader.run_trader` is recorded in the tick result.
-/

namespace Finance

/-- A Python float that is either a finite number (modelled exactly as a
rational) or NaN.  Arithmetic with NaN yields NaN, as in IEEE/Python. -/
inductive PyFloat where
  | num (q : ℚ)
  | nan
deriving DecidableEq, Repr

instance : Add PyFloat := ⟨fun a b => match a, b with
  | .num x, .num y => .num (x + y)
  | _, _ => .nan⟩

instance : Sub PyFloat := ⟨fun a b => match a, b with
  | .num x, .num y => .num (x - y)
  | _, _ => .nan⟩

instance : Mul PyFloat := ⟨fun a b => match a, b with
  | .num x, .num y => .num (x * y)
  | _, _ => .nan⟩

/-- `trader.py:121` / `oanda_live_trader.py:182`:
`pip_value = 0.0001  # For most currency pairs` — a hard-coded constant,
not read from `strategy_params` or any other configuration. -/
def pip_value : PyFloat := .num (1 / 10000)

/-- The bracketed market order built by `place_order` (`order_data`):
instrument, signed units, and the absolute stop-loss / take-profit
prices attached via `stopLossOnFill` / `takeProfitOnFill`. -/
structure BracketOrder where
  instrument : String
  units : Int
  slPrice : PyFloat
  tpPrice : PyFloat
deriving DecidableEq, Repr

/-- The venue's response to an `OrderCreate` submission, as read by
`place_order`: it may carry an `orderFillTransaction` and/or an
`orderCancelTransaction` key (each modelled as an opaque payload). -/
structure OrderResponse where
  orderFillTransaction : Option String
  orderCancelTransaction : Option String
deriving DecidableEq, Repr

/-- Result of one `place_order` call: the value returned to the caller
(`some` fill payload on `orderFillTransaction`, otherwise `none`), and
the list of order submissions actually sent to the venue. -/
structure PlaceOrderResult where
  fill : Option String
  submissions : List BracketOrder
deriving DecidableEq, Repr

/-- `OandaTrader.place_order` (`trader.py:112-166`).  `currentPrice` is the
close of the freshest S5 candle (`none` when that fetch returns `None` or
an empty frame).  For `units > 0`: `sl = price − slPips·pip_value`,
`tp = price + tpPips·pip_value`; for `units < 0` the signs invert; zero
units submit nothing.  The submission is sent, then the response is
classified: a fill key returns the fill, a cancel key or anything else
returns `None`. -/
def place_order (instrument : String) (units : Int)
    (stop_loss_pips take_profit_pips : PyFloat)
    (currentPrice : Option ℚ) (resp : OrderResponse) : PlaceOrderResult :=
  match currentPrice with
  | none => ⟨none, []⟩
  | some p =>
    if units > 0 then
      let req : BracketOrder :=
        ⟨instrument, units, PyFloat.num p - stop_loss_pips * pip_value,
          PyFloat.num p + take_profit_pips * pip_value⟩
      ⟨resp.orderFillTransaction, [req]⟩
    else if units < 0 then
      let req : BracketOrder :=
        ⟨instrument, units, PyFloat.num p + stop_loss_pips * pip_value,
          PyFloat.num p - take_profit_pips * pip_value⟩
      ⟨resp.orderFillTransaction, [req]⟩
    else
      ⟨none, []⟩

/-- Modelled from the spec: `stop = reference − stopLossPips·pipSize` for a
long, with `pipSize` a configuration input (spec §4.2 "Numeric policy").
Used only to compare the spec's required bracket level against the one the
code computes. -/
def specStopLong (pipSize reference stopLossPips : ℚ) : ℚ :=
  reference - stopLossPips * pipSize

/-! ## Market data gateway (`OandaTrader.get_latest_candles`) -/

/-- The `mid` block of an OANDA candle: o/h/l/c quoted prices. -/
structure MidPrices where
  o : ℚ
  h : ℚ
  l : ℚ
  c : ℚ
deriving DecidableEq, Repr

/-- One raw candle of the venue's `candles` array: timestamp, volume, the
`complete` flag, and the `mid` block when present. -/
structure RawCandle where
  time : Nat
  volume : Int
  complete : Bool
  mid : Option MidPrices
deriving DecidableEq, Repr

/-- One row of the dataframe `get_latest_candles` builds (its `records`). -/
structure BarRec where
  time : Nat
  openPrice : ℚ
  highPrice : ℚ
  lowPrice : ℚ
  closePrice : ℚ
  volume : Int
deriving DecidableEq, Repr

/-- The record `get_latest_candles` appends for a candle that passes the
`if complete and 'mid' in candle` guard (`trader.py:72-81`). -/
def mkBarRec (time : Nat) (m : MidPrices) (volume : Int) : BarRec :=
  ⟨time, m.o, m.h, m.l, m.c, volume⟩

/-- The record-building loop of `get_latest_candles` (`trader.py:67-81`):
only candles with a truthy `complete` flag and a `mid` block contribute a
row. -/
def candleRecords (data : List RawCandle) : List BarRec :=
  data.filterMap fun cd =>
    match cd.mid with
    | some m => if cd.complete then some (mkBarRec cd.time m cd.volume) else none
    | none => none

/-- `OandaTrader.get_latest_candles` (`trader.py:56-90`): returns `None`
when the response carries no candles (and on any exception, folded into
the same `none`), otherwise the dataframe of records built from the
complete candles. -/
def get_latest_candles (data : List RawCandle) : Option (List BarRec) :=
  if data.isEmpty then none else some (candleRecords data)

/-! ## Controller state and one tick of `OandaTrader.run_trader` -/

/-- The strategy parameters `run_trader` reads (`main.py:165-176` builds
the full dict; only these keys are consumed by the controller). -/
structure StrategyParams where
  instrument : String
  granularity : String
  cooldown_periods : Nat
  lookback_period : Nat
  trade_units : Int
deriving DecidableEq, Repr

/-- The mutable state of `OandaTrader` (`trader.py:28-29`):
`last_trade_exit_time` (a UTC timestamp, modelled in hours) and
`cooldown_active`. -/
structure TraderState where
  last_trade_exit_time : Option ℚ
  cooldown_active : Bool
deriving DecidableEq, Repr

/-- One element of the venue's open-positions list, as read by
`run_trader` (`trader.py:191-201`). -/
structure PositionRec where
  instrument : String
  longUnits : Int
  shortUnits : Int
deriving DecidableEq, Repr

/-- The derived columns of the last dataframe row that `run_trader` reads
after `apply_indicators` and `calculate_signals`: `signal`, and the
`stop_loss_pips` / `take_profit_pips` cells.  A cell is `Option.none` when
it holds Python `None` (so `float(...)` raises `TypeError`), and
`some .nan` when it holds NaN. -/
structure SignalRow where
  signal : Int
  stop_loss_pips : Option PyFloat
  take_profit_pips : Option PyFloat
deriving DecidableEq, Repr

/-- Everything the environment supplies to one tick: the wall clock, the
open-positions query result, the result of the `candles_needed` data
fetch, the last derived row the pluggable indicator/signal pipeline
produces on those bars, the S5 reference price `place_order` resolves,
and the venue's response to a submission. -/
structure TickEnv where
  now : ℚ
  positions : List PositionRec
  bars : Option (List BarRec)
  sigRow : SignalRow
  currentPrice : Option ℚ
  resp : OrderResponse
deriving DecidableEq, Repr

/-- An exception raised inside the tick body and caught by the
`except Exception` handler at the loop boundary (`trader.py:279-281`). -/
inductive TickExc where
  | attributeError
  | typeError
deriving DecidableEq, Repr

/-- Which branch of the tick body ran to completion (or raised). -/
inductive TickPath where
  | cooldownCheck
  | holdingPosition
  | dataRetry
  | noSignal
  | orderFlow
deriving DecidableEq, Repr

/-- The outcome of one tick: the trader state afterwards, the order
submissions sent to the venue during the tick, the branch taken, and the
exception (if any) caught at the tick boundary. -/
structure TickResult where
  state : TraderState
  submissions : List BracketOrder
  path : TickPath
  exc : Option TickExc
deriving DecidableEq, Repr

/-- `trader.py:31`: `candles_needed = lookback_period + buffer`
(`buffer` defaults to 50 in `__init__`). -/
def candles_needed (p : StrategyParams) (buffer : Nat) : Nat :=
  p.lookback_period + buffer

/-- The position scan of `run_trader` (`trader.py:189-201`): a position
whose `instrument` matches the configured instrument sets `has_position`. -/
def hasPosition (p : StrategyParams) (ps : List PositionRec) : Bool :=
  ps.any fun pos => pos.instrument == p.instrument

/-- The order-placement arm of the tick (`trader.py:226-266`): extract the
last row's pip cells with `float(...)` (raising `TypeError` on a Python
`None` cell, before any submission), call `place_order`, and on a truthy
fill evaluate `datetime.datetime.now(datetime.UTC)` (`trader.py:242`,
`263`) — which raises `AttributeError`, because `from datetime import
datetime` binds the class and the class has no `datetime` attribute, so
neither `last_trade_exit_time` nor `cooldown_active` is ever assigned. -/
def attemptOrder (p : StrategyParams) (st : TraderState) (env : TickEnv)
    (units : Int) : TickResult :=
  match env.sigRow.stop_loss_pips with
  | none => ⟨st, [], .orderFlow, some .typeError⟩
  | some sl =>
    match env.sigRow.take_profit_pips with
    | none => ⟨st, [], .orderFlow, some .typeError⟩
    | some tp =>
      let r := place_order p.instrument units sl tp env.currentPrice env.resp
      match r.fill with
      | some _ => ⟨st, r.submissions, .orderFlow, some .attributeError⟩
      | none => ⟨st, r.submissions, .orderFlow, none⟩

/-- One pass of the `while True` body of `OandaTrader.run_trader`
(`trader.py:171-273`), between the tick-boundary exception handlers.
When `cooldown_active` holds, line 175 computes
`last_trade_exit_time + timedelta(hours=cooldown_periods)` (raising
`TypeError` when the exit time is `None`), and line 177 evaluates
`datetime.datetime.datetime.now(datetime.UTC)`, which raises
`AttributeError` (`datetime` is the class, per the `from datetime import
datetime` import), so the cooldown branch always raises before changing
state.  Otherwise: position check, data-sufficiency check
(`trader.py:214-217`), then the signal dispatch on the last row. -/
def runTick (p : StrategyParams) (buffer : Nat) (st : TraderState)
    (env : TickEnv) : TickResult :=
  if st.cooldown_active then
    match st.last_trade_exit_time with
    | none => ⟨st, [], .cooldownCheck, some .typeError⟩
    | some _ => ⟨st, [], .cooldownCheck, some .attributeError⟩
  else if hasPosition p env.positions then
    ⟨st, [], .holdingPosition, none⟩
  else
    match env.bars with
    | none => ⟨st, [], .dataRetry, none⟩
    | some bs =>
      if (bs.length : Int) < (candles_needed p buffer : Int) - 10 then
        ⟨st, [], .dataRetry, none⟩
      else if env.sigRow.signal = 1 then
        attemptOrder p st env p.trade_units
      else if env.sigRow.signal = -1 then
        attemptOrder p st env (-p.trade_units)
      else
        ⟨st, [], .noSignal, none⟩

/-! ## The polling loop's tick boundary (`trader.py:275-281`) -/

/-- How one execution of the tick body ended, as seen by the `try` of the
polling loop: it ran to completion, the operator pressed Ctrl-C
(`KeyboardInterrupt`), or it raised an ordinary exception. -/
inductive TickOutcome where
  | completed
  | interrupt
  | raised (e : TickExc)
deriving DecidableEq, Repr

/-- The outcome the loop observes for a tick of the embedded body: a
caught exception becomes `raised`; the body itself never produces a
`KeyboardInterrupt`, which is an asynchronous operator signal. -/
def outcomeOfTick (r : TickResult) : TickOutcome :=
  match r.exc with
  | some e => .raised e
  | none => .completed

/-- What the loop does after a tick. -/
inductive LoopDecision where
  | continueNormally
  | continueAfterBackoff
  | stopped
deriving DecidableEq, Repr

/-- The exception handlers wrapping the tick body (`trader.py:275-281`):
`except KeyboardInterrupt` breaks out of the loop; `except Exception`
logs, sleeps the fixed 60s backoff, and falls through to the next
iteration; a completed tick continues after its normal sleep. -/
def tickBoundaryHandler : TickOutcome → LoopDecision
  | .completed => .continueNormally
  | .interrupt => .stopped
  | .raised _ => .continueAfterBackoff

/-- Running the `while True` loop over a finite trace of tick outcomes:
`true` iff the loop is still running after consuming the whole trace. -/
def loopRuns : List TickOutcome → Bool
  | [] => true
  | o :: rest =>
    match tickBoundaryHandler o with
    | .stopped => false
    | _ => loopRuns rest

/-! ## Indicator pipeline (`OandaTrader.apply_indicators`, `trader.py:46-54`) -/

/-- `OandaTrader.apply_indicators`: fold the registered indicator stages
over the dataframe, each inside its own `try`: a stage that returns
(`some df'`) replaces the frame, a stage that raises (`none`) is logged
and skipped, leaving the frame as the previous stages produced it. -/
def apply_indicators {α β : Type} (indicator_functions : List (α → β → Option α))
    (params : β) (df : α) : α :=
  match indicator_functions with
  | [] => df
  | f :: rest =>
    apply_indicators rest params
      (match f df params with
       | some d => d
       | none => df)

/-! ## Venue JSON responses and `OandaTrader.get_open_trades` -/

/-- A JSON value, as far as the account-state readers inspect one. -/
inductive Json where
  | null
  | str (s : String)
  | num (q : ℚ)
  | arr (elems : List Json)
  | obj (fields : List (String × Json))

/-- Python `dict.get` on the field list of a JSON object. -/
def jsonGet (fields : List (String × Json)) (key : String) : Option Json :=
  match fields with
  | [] => none
  | (k, v) :: rest => if k = key then some v else jsonGet rest key

/-- `r.response.get(key, default)` as used by the account-state readers. -/
def responseGet (resp : Json) (key : String) (default : Json) : Json :=
  match resp with
  | .obj fields => (jsonGet fields key).getD default
  | _ => default

/-- `OandaTrader.get_open_trades` (`trader.py:92-100`): it sends a
`positions.OpenPositions` query — not an open-trades query — and then
returns `r.response.get('trades', [])`. -/
def get_open_trades (resp : Json) : Json :=
  responseGet resp "trades" (Json.arr [])

/-- The top-level keys of the venue's OpenPositions response body.  Per
the OANDA v20 API (spec §6: "open-positions query by account"), the
response to an open-positions request carries the account's positions
list and the last transaction id, and never a `trades` key. -/
def openPositionsResponseKeys : List String :=
  ["positions", "lastTransactionID"]

/-- A well-formed OpenPositions response: a JSON object all of whose
top-level keys belong to `openPositionsResponseKeys`. -/
def WellFormedOpenPositionsResponse (resp : Json) : Prop :=
  ∃ fields, resp = Json.obj fields ∧
    ∀ kv ∈ fields, kv.1 ∈ openPositionsResponseKeys

/-! ## Concrete fixtures -/

/-- The strategy configuration `main.py:165-176` passes to `OandaTrader`:
EUR_USD, H1 bars, 10 cooldown periods, lookback 200, 1000 units. -/
def paramsEURUSD : StrategyParams := ⟨"EUR_USD", "H1", 10, 200, 1000⟩

/-- A complete H1 bar at mid price 1.1. -/
def completeBar : BarRec := ⟨0, 11/10, 11/10, 11/10, 11/10, 100⟩

/-- A fetched series of 250 complete bars (`candles_needed` for
`paramsEURUSD` with the default buffer 50). -/
def bars250 : List BarRec := List.replicate 250 completeBar

/-- A venue response carrying an `orderFillTransaction`. -/
def fillResp : OrderResponse := ⟨some "FILL", none⟩

/-- A venue response carrying only an `orderCancelTransaction`. -/
def cancelResp : OrderResponse := ⟨none, some "INSUFFICIENT_MARGIN"⟩

/-- A tick environment: flat account, 250 complete bars, long signal with
sl=50 / tp=100 pips, S5 reference price 1.10, and a fill response. -/
def longFillEnv : TickEnv :=
  ⟨0, [], some bars250, ⟨1, some (.num 50), some (.num 100)⟩, some (11/10), fillResp⟩

/-- Like `longFillEnv` but with a short signal on the next tick. -/
def shortFillEnv : TickEnv :=
  ⟨1, [], some bars250, ⟨-1, some (.num 50), some (.num 100)⟩, some (11/10), fillResp⟩

/-- Like `longFillEnv` but the venue declines the order. -/
def longCancelEnv : TickEnv :=
  ⟨0, [], some bars250, ⟨1, some (.num 50), some (.num 100)⟩, some (11/10), cancelResp⟩

/-- A tick environment whose long signal carries NaN stop/target
distances in the derived columns. -/
def nanSignalEnv : TickEnv :=
  ⟨0, [], some bars250, ⟨1, some .nan, some .nan⟩, some (11/10), cancelResp⟩

/-- A tick environment where the data fetch returned only 5 bars. -/
def shortDataEnv : TickEnv :=
  ⟨0, [], some (List.replicate 5 completeBar),
    ⟨1, some (.num 50), some (.num 100)⟩, some (11/10), fillResp⟩

/-! ## Basic computation lemmas -/

@[simp] theorem pyfloat_num_add (x y : ℚ) :
    PyFloat.num x + PyFloat.num y = PyFloat.num (x + y) := rfl

@[simp] theorem pyfloat_num_sub (x y : ℚ) :
    PyFloat.num x - PyFloat.num y = PyFloat.num (x - y) := rfl

@[simp] theorem pyfloat_num_mul (x y : ℚ) :
    PyFloat.num x * PyFloat.num y = PyFloat.num (x * y) := rfl

@[simp] theorem pyfloat_nan_mul (x : PyFloat) : PyFloat.nan * x = PyFloat.nan := rfl

@[simp] theorem pyfloat_mul_nan (x : PyFloat) : x * PyFloat.nan = PyFloat.nan := by
  cases x <;> rfl

@[simp] theorem pyfloat_add_nan (x : PyFloat) : x + PyFloat.nan = PyFloat.nan := by
  cases x <;> rfl

@[simp] theorem pyfloat_sub_nan (x : PyFloat) : x - PyFloat.nan = PyFloat.nan := by
  cases x <;> rfl

/-- No branch of the tick body of `run_trader` ever assigns the trader
state: the two sites that would (`trader.py:178-179` and
`trader.py:242-243` / `263-264`) sit after expressions that raise. -/
theorem runTick_state_eq (p : StrategyParams) (buffer : Nat) (st : TraderState)
    (env : TickEnv) : (runTick p buffer st env).state = st := by
  unfold runTick attemptOrder place_order
  rcases st with ⟨ltet, ca⟩
  dsimp only
  split
  · split <;> rfl
  · split
    · rfl
    · split
      · rfl
      · split
        · rfl
        · split
          · split
            · rfl
            · split
              · rfl
              · split <;> split <;> rfl
          · split
            · split
              · rfl
              · split
                · rfl
                · split <;> split <;> rfl
            · rfl

/-- When the venue response carries no fill transaction, `place_order`
returns `None` to its caller, whatever the inputs. -/
theorem place_order_fill_of_no_fill (ins : String) (units : Int)
    (sl tp : PyFloat) (price : Option ℚ) (resp : OrderResponse)
    (h : resp.orderFillTransaction = none) :
    (place_order ins units sl tp price resp).fill = none := by
  unfold place_order
  cases price with
  | none => rfl
  | some p =>
    dsimp only
    split
    · exact h
    · split
      · exact h
      · rfl

/-! ## Claim theorems -/

set_option maxRecDepth 8000 in
/-- C1: the claim says a tick in which `place_order` returns a fill makes
the controller enter Cooldown with a deadline, and that no order is
submitted before the deadline.  Evaluating the embedded code at a fill
tick: the order is submitted and filled, but the assignment at
`trader.py:242` raises `AttributeError` before `cooldown_active` can be
set, the tick-boundary handler catches it, the state stays flat with no
deadline, and the very next tick (here with a short signal) submits
another order. -/
theorem fill_tick_never_enters_cooldown :
    ((runTick paramsEURUSD 50 ⟨none, false⟩ longFillEnv).submissions.length = 1 ∧
      (runTick paramsEURUSD 50 ⟨none, false⟩ longFillEnv).state.cooldown_active = false ∧
      (runTick paramsEURUSD 50 ⟨none, false⟩ longFillEnv).state.last_trade_exit_time = none ∧
      (runTick paramsEURUSD 50 ⟨none, false⟩ longFillEnv).exc = some .attributeError) ∧
    (runTick paramsEURUSD 50
        (runTick paramsEURUSD 50 ⟨none, false⟩ longFillEnv).state
        shortFillEnv).submissions.length = 1 := by
  decide

/-- C2: for `units > 0` the submitted stop is `price − slPips·0.0001` and
the target `price + tpPips·0.0001`; for `units < 0` both signs invert;
and in the concrete scenario (long, sl=50, tp=100, reference 1.10000)
the order carries stop 1.09500, target 1.11000 and positive units. -/
theorem place_order_bracket_levels (ins : String) (units : Int) (s t p : ℚ)
    (resp : OrderResponse) :
    (units > 0 →
      (place_order ins units (.num s) (.num t) (some p) resp).submissions =
        [⟨ins, units, .num (p - s * (1/10000)), .num (p + t * (1/10000))⟩]) ∧
    (units < 0 →
      (place_order ins units (.num s) (.num t) (some p) resp).submissions =
        [⟨ins, units, .num (p + s * (1/10000)), .num (p - t * (1/10000))⟩]) ∧
    ((1000 : Int) > 0 ∧
      (place_order "EUR_USD" 1000 (.num 50) (.num 100) (some (11/10)) resp).submissions =
        [⟨"EUR_USD", 1000, .num (219/200), .num (111/100)⟩]) := by
  refine ⟨fun h => ?_, fun h => ?_, by norm_num, ?_⟩
  · simp [place_order, pip_value, h]
  · have h' : ¬ units > 0 := by omega
    simp [place_order, pip_value, h, h']
  · simp [place_order, pip_value]
    norm_num

/-- C2 witness: the bracket-level theorem applied at the spec's concrete
scenario. -/
theorem place_order_bracket_levels_witness :
    (place_order "EUR_USD" 1000 (.num 50) (.num 100) (some (11/10)) cancelResp).submissions =
      [⟨"EUR_USD", 1000, .num (11/10 - 50 * (1/10000)), .num (11/10 + 100 * (1/10000))⟩] :=
  (place_order_bracket_levels "EUR_USD" 1000 50 100 (11/10) cancelResp).1 (by norm_num)

/-- C3 counterexample: with a configured pip size of 0.01 (a JPY-quoted
pair at reference 143.00, sl=50 pips) the spec-required stop is 142.50,
but `place_order` computes 142.995 — the configured pip size is not what
the bracket levels use. -/
theorem pip_size_not_from_config_counterexample :
    (place_order "USD_JPY" 1000 (.num 50) (.num 100) (some 143) cancelResp).submissions.map
        BracketOrder.slPrice ≠ [PyFloat.num (specStopLong (1/100) 143 50)] := by
  simp [place_order, pip_value, specStopLong]

set_option linter.unusedVariables false in
/-- C3 (amended): the pip size is not a configuration input; `place_order`
hard-codes `pip_value = 0.0001` (`trader.py:121`), so for every configured
pip size the computed stop level is the spec formula evaluated at 0.0001,
independent of the configured value. -/
theorem pip_size_hard_coded (pipSizeCfg : ℚ) (ins : String) (units : Int)
    (s t p : ℚ) (resp : OrderResponse) (h : units > 0) :
    (place_order ins units (.num s) (.num t) (some p) resp).submissions.map
        BracketOrder.slPrice = [PyFloat.num (specStopLong (1/10000) p s)] := by
  simp [place_order, pip_value, specStopLong, h]

/-- C3 witness: the hard-coded-pip theorem applied at the JPY-style
configuration of the counterexample. -/
theorem pip_size_hard_coded_witness :
    (place_order "USD_JPY" 1000 (.num 50) (.num 100) (some 143) cancelResp).submissions.map
        BracketOrder.slPrice = [PyFloat.num (specStopLong (1/10000) 143 50)] :=
  pip_size_hard_coded (1/100) "USD_JPY" 1000 50 100 143 cancelResp (by norm_num)

set_option linter.unusedVariables false in
/-- C4: when the venue response carries an `orderCancelTransaction` and no
fill, `place_order` returns `None` for every input, and the tick leaves
the trader state untouched: `cooldown_active` stays false and the
controller stays in the flat phase. -/
theorem cancel_response_stays_flat (p : StrategyParams) (buffer : Nat)
    (st : TraderState) (env : TickEnv)
    (hflat : st.cooldown_active = false)
    (hcancel : env.resp.orderCancelTransaction.isSome)
    (hnofill : env.resp.orderFillTransaction = none) :
    (∀ ins units sl tp price,
        (place_order ins units sl tp price env.resp).fill = none) ∧
    (runTick p buffer st env).state = st ∧
    (runTick p buffer st env).state.cooldown_active = false := by
  refine ⟨fun ins units sl tp price =>
      place_order_fill_of_no_fill ins units sl tp price env.resp hnofill,
    runTick_state_eq p buffer st env, ?_⟩
  rw [runTick_state_eq p buffer st env, hflat]

/-- C4 witness: the cancel-response theorem applied at a concrete declined
long-signal tick. -/
theorem cancel_response_stays_flat_witness :
    (∀ ins units sl tp price,
        (place_order ins units sl tp price longCancelEnv.resp).fill = none) ∧
    (runTick paramsEURUSD 50 ⟨none, false⟩ longCancelEnv).state = ⟨none, false⟩ ∧
    (runTick paramsEURUSD 50 ⟨none, false⟩ longCancelEnv).state.cooldown_active = false :=
  cancel_response_stays_flat paramsEURUSD 50 ⟨none, false⟩ longCancelEnv
    rfl (by decide) rfl

/-- C5: a tick that is flat and holds no position, whose data fetch
returned `None` or fewer than `candles_needed − 10` bars, takes the
insufficient-data retry branch, submits no order, and leaves the state
unchanged. -/
theorem insufficient_data_submits_nothing (p : StrategyParams) (buffer : Nat)
    (st : TraderState) (env : TickEnv)
    (hflat : st.cooldown_active = false)
    (hnopos : hasPosition p env.positions = false)
    (hdata : env.bars = none ∨
      ∃ bs, env.bars = some bs ∧
        (bs.length : Int) < (candles_needed p buffer : Int) - 10) :
    (runTick p buffer st env).path = .dataRetry ∧
    (runTick p buffer st env).submissions = [] ∧
    (runTick p buffer st env).state = st := by
  unfold runTick
  rcases hdata with hnone | ⟨bs, hbs, hlen⟩
  · simp [hflat, hnopos, hnone]
  · simp [hflat, hnopos, hbs, hlen]

/-- C5 witness: the insufficient-data theorem applied at a tick whose
fetch returned 5 bars where 250 were requested (240 required), even
though the signal row shows a long signal. -/
theorem insufficient_data_submits_nothing_witness :
    (runTick paramsEURUSD 50 ⟨none, false⟩ shortDataEnv).path = .dataRetry ∧
    (runTick paramsEURUSD 50 ⟨none, false⟩ shortDataEnv).submissions = [] ∧
    (runTick paramsEURUSD 50 ⟨none, false⟩ shortDataEnv).state = ⟨none, false⟩ :=
  insufficient_data_submits_nothing paramsEURUSD 50 ⟨none, false⟩ shortDataEnv
    rfl rfl (Or.inr ⟨List.replicate 5 completeBar, rfl, by decide⟩)

/-- A Python `None` in either pip cell makes the `float(...)` extraction
raise `TypeError` before any venue call, so the order arm submits
nothing. -/
theorem attemptOrder_none_cell (p : StrategyParams) (st : TraderState)
    (env : TickEnv) (units : Int)
    (h : env.sigRow.stop_loss_pips = none ∨ env.sigRow.take_profit_pips = none) :
    attemptOrder p st env units = ⟨st, [], .orderFlow, some .typeError⟩ := by
  unfold attemptOrder
  rcases h with h | h
  · simp [h]
  · cases hsl : env.sigRow.stop_loss_pips <;> simp [h]

/-- NaN pip cells flow through `float(...)` and into `place_order`, which
submits a bracket order whose stop and target prices are NaN. -/
theorem attemptOrder_nan_cells (p : StrategyParams) (st : TraderState)
    (env : TickEnv) (units : Int) (pr : ℚ)
    (hsl : env.sigRow.stop_loss_pips = some .nan)
    (htp : env.sigRow.take_profit_pips = some .nan)
    (hpr : env.currentPrice = some pr)
    (hu : units ≠ 0) :
    (attemptOrder p st env units).submissions =
      [⟨p.instrument, units, PyFloat.nan, PyFloat.nan⟩] := by
  unfold attemptOrder place_order
  rcases lt_trichotomy units 0 with hlt | heq | hgt
  · have h1 : ¬ units > 0 := by omega
    simp only [hsl, htp, hpr, h1, hlt, if_true, if_false, pyfloat_mul_nan,
      pyfloat_add_nan, pyfloat_sub_nan, pyfloat_nan_mul]
    split <;> rfl
  · exact absurd heq hu
  · simp only [hsl, htp, hpr, hgt, if_true, if_false, pyfloat_mul_nan,
      pyfloat_add_nan, pyfloat_sub_nan, pyfloat_nan_mul]
    split <;> rfl

/-- Under a flat, no-position, data-sufficient tick, the signal dispatch
of `run_trader` reduces to the order arm with the signed unit count. -/
theorem runTick_signal_dispatch (p : StrategyParams) (buffer : Nat)
    (st : TraderState) (env : TickEnv) (bs : List BarRec)
    (hflat : st.cooldown_active = false)
    (hnopos : hasPosition p env.positions = false)
    (hbars : env.bars = some bs)
    (hlen : ¬ (bs.length : Int) < (candles_needed p buffer : Int) - 10) :
    (env.sigRow.signal = 1 →
      runTick p buffer st env = attemptOrder p st env p.trade_units) ∧
    (env.sigRow.signal = -1 →
      runTick p buffer st env = attemptOrder p st env (-p.trade_units)) := by
  constructor <;> intro hsig <;>
    simp [runTick, hflat, hnopos, hbars, hlen, hsig]

set_option maxRecDepth 8000 in
/-- C6 counterexample: a flat tick with 250 bars, a long signal, and NaN
stop/target distance cells is not treated as a None signal — the
controller calls `place_order`, which submits an order carrying NaN
bracket prices. -/
theorem nan_distance_order_submitted :
    (runTick paramsEURUSD 50 ⟨none, false⟩ nanSignalEnv).submissions ≠ [] ∧
    (runTick paramsEURUSD 50 ⟨none, false⟩ nanSignalEnv).submissions =
      [⟨"EUR_USD", 1000, PyFloat.nan, PyFloat.nan⟩] := by
  constructor
  · decide
  · decide

/-- C6 (amended): a Long/Short latest-bar signal whose stop-loss or
take-profit cell is Python `None` aborts the tick with a `TypeError`
caught at the tick boundary and zero submissions; a NaN distance, by
contrast, is not treated as None — the controller submits exactly one
order whose stop and target prices are NaN. -/
theorem undefined_distance_dispatch (p : StrategyParams) (buffer : Nat)
    (st : TraderState) (env : TickEnv) (bs : List BarRec)
    (hflat : st.cooldown_active = false)
    (hnopos : hasPosition p env.positions = false)
    (hbars : env.bars = some bs)
    (hlen : ¬ (bs.length : Int) < (candles_needed p buffer : Int) - 10)
    (hsig : env.sigRow.signal = 1 ∨ env.sigRow.signal = -1) :
    ((env.sigRow.stop_loss_pips = none ∨ env.sigRow.take_profit_pips = none) →
      (runTick p buffer st env).submissions = [] ∧
      (runTick p buffer st env).exc = some .typeError) ∧
    (∀ pr : ℚ, env.sigRow.stop_loss_pips = some .nan →
      env.sigRow.take_profit_pips = some .nan →
      env.currentPrice = some pr → p.trade_units ≠ 0 →
      (runTick p buffer st env).submissions.length = 1 ∧
      ∀ o ∈ (runTick p buffer st env).submissions,
        o.slPrice = PyFloat.nan ∧ o.tpPrice = PyFloat.nan) := by
  have hdis := runTick_signal_dispatch p buffer st env bs hflat hnopos hbars hlen
  have harm : ∃ u : Int, (u = 0 → p.trade_units = 0) ∧
      runTick p buffer st env = attemptOrder p st env u := by
    rcases hsig with hsig | hsig
    · exact ⟨p.trade_units, fun h => h, hdis.1 hsig⟩
    · exact ⟨-p.trade_units, fun h => by omega, hdis.2 hsig⟩
  rcases harm with ⟨u, hu0, harm⟩
  constructor
  · intro hcell
    rw [harm, attemptOrder_none_cell p st env u hcell]
    exact ⟨rfl, rfl⟩
  · intro pr hsl htp hpr hunits
    have hu : u ≠ 0 := fun h => hunits (hu0 h)
    rw [harm, attemptOrder_nan_cells p st env u pr hsl htp hpr hu]
    refine ⟨rfl, ?_⟩
    intro o ho
    rcases List.mem_singleton.mp ho with rfl
    exact ⟨rfl, rfl⟩

set_option maxRecDepth 8000 in
/-- C6 witness: the amended theorem applied at the NaN-signal tick of the
counterexample. -/
theorem undefined_distance_dispatch_witness :
    (runTick paramsEURUSD 50 ⟨none, false⟩ nanSignalEnv).submissions.length = 1 ∧
    ∀ o ∈ (runTick paramsEURUSD 50 ⟨none, false⟩ nanSignalEnv).submissions,
      o.slPrice = PyFloat.nan ∧ o.tpPrice = PyFloat.nan :=
  (undefined_distance_dispatch paramsEURUSD 50 ⟨none, false⟩ nanSignalEnv bars250
      rfl rfl rfl (by decide) (Or.inl rfl)).2
    (11/10) rfl rfl rfl (by decide)

/-- C7: an ordinary exception raised inside the tick body is caught at
the tick boundary and the loop continues after the fixed backoff; the
only outcome that stops the loop is the operator interrupt; no outcome
the embedded tick body can produce stops it; and a trace free of
interrupts leaves the loop still running after every tick. -/
theorem only_interrupt_stops_loop :
    (∀ e : TickExc, tickBoundaryHandler (.raised e) = .continueAfterBackoff) ∧
    (∀ o : TickOutcome, tickBoundaryHandler o = .stopped → o = .interrupt) ∧
    (∀ (p : StrategyParams) (buffer : Nat) (st : TraderState) (env : TickEnv),
      tickBoundaryHandler (outcomeOfTick (runTick p buffer st env)) ≠ .stopped) ∧
    (∀ trace : List TickOutcome,
      (∀ o ∈ trace, o ≠ .interrupt) → loopRuns trace = true) := by
  refine ⟨fun e => rfl, ?_, ?_, ?_⟩
  · intro o h
    cases o with
    | completed => exact absurd h (by decide)
    | interrupt => rfl
    | raised e => exact absurd h (by simp [tickBoundaryHandler])
  · intro p buffer st env
    cases h : (runTick p buffer st env).exc <;>
      simp [outcomeOfTick, tickBoundaryHandler, h]
  · intro trace
    induction trace with
    | nil => intro _; rfl
    | cons o rest ih =>
      intro h
      have ho : o ≠ .interrupt := h o (List.mem_cons_self o rest)
      have hrest : ∀ x ∈ rest, x ≠ TickOutcome.interrupt :=
        fun x hx => h x (List.mem_cons_of_mem o hx)
      cases o with
      | completed => simpa [loopRuns, tickBoundaryHandler] using ih hrest
      | interrupt => exact absurd rfl ho
      | raised e => simpa [loopRuns, tickBoundaryHandler] using ih hrest

/-- C7 witness: the loop survives a trace holding both kinds of caught
exception and no interrupt. -/
theorem only_interrupt_stops_loop_witness :
    loopRuns [.completed, .raised .attributeError, .raised .typeError] = true :=
  only_interrupt_stops_loop.2.2.2
    [.completed, .raised .attributeError, .raised .typeError] (by decide)

/-- C8: every row of a dataframe returned by `get_latest_candles` comes
from a candle whose `complete` flag is set (and whose `mid` block is
present); incomplete candles, including the currently-forming last one,
never contribute a row. -/
theorem get_latest_candles_complete_only (data : List RawCandle)
    (df : List BarRec) (h : get_latest_candles data = some df) :
    ∀ rec ∈ df, ∃ cd ∈ data, cd.complete = true ∧
      ∃ m, cd.mid = some m ∧ rec = mkBarRec cd.time m cd.volume := by
  have hdf : df = candleRecords data := by
    unfold get_latest_candles at h
    split at h
    · exact absurd h (by simp)
    · exact (Option.some.injEq _ _ ▸ h).symm
  subst hdf
  intro rec hrec
  rcases List.mem_filterMap.mp hrec with ⟨cd, hcd, hmk⟩
  refine ⟨cd, hcd, ?_⟩
  cases hm : cd.mid with
  | none => rw [hm] at hmk; exact absurd hmk (by simp)
  | some m =>
    rw [hm] at hmk
    by_cases hc : cd.complete
    · simp only [hc, if_true] at hmk
      exact ⟨hc, m, rfl, (Option.some.injEq _ _ ▸ hmk).symm⟩
    · simp [hc] at hmk

/-- A response body with one incomplete candle, one complete candle with
a `mid` block, and one complete candle without one. -/
def candleFixture : List RawCandle :=
  [⟨0, 10, false, some ⟨1, 1, 1, 1⟩⟩,
   ⟨1, 20, true, some ⟨11/10, 11/10, 11/10, 11/10⟩⟩,
   ⟨2, 30, true, none⟩]

/-- C8 witness: the completeness theorem applied to `candleFixture`,
whose only surviving row is the complete candle with a `mid` block. -/
theorem get_latest_candles_complete_only_witness :
    ∃ cd ∈ candleFixture, cd.complete = true ∧
      ∃ m, cd.mid = some m ∧
        mkBarRec 1 ⟨11/10, 11/10, 11/10, 11/10⟩ 20 = mkBarRec cd.time m cd.volume :=
  get_latest_candles_complete_only candleFixture
    [mkBarRec 1 ⟨11/10, 11/10, 11/10, 11/10⟩ 20] rfl
    (mkBarRec 1 ⟨11/10, 11/10, 11/10, 11/10⟩ 20) (List.mem_singleton.mpr rfl)

/-- A field list whose keys all come from the OpenPositions response
shape never yields a value for the `trades` key. -/
theorem jsonGet_trades_none (fields : List (String × Json))
    (hkeys : ∀ kv ∈ fields, kv.1 ∈ openPositionsResponseKeys) :
    jsonGet fields "trades" = none := by
  induction fields with
  | nil => rfl
  | cons kv rest ih =>
    have h1 : kv.1 ∈ openPositionsResponseKeys :=
      hkeys kv (List.mem_cons_self kv rest)
    have h2 : ¬ kv.1 = "trades" := by
      rcases List.mem_cons.mp h1 with h | h
      · rw [h]; decide
      · rcases List.mem_cons.mp h with h | h
        · rw [h]; decide
        · exact absurd h (by simp)
    cases kv with
    | mk k v =>
      unfold jsonGet
      simp only [h2, if_false]
      exact ih fun x hx => hkeys x (List.mem_cons_of_mem _ hx)

/-- C9: on every well-formed OpenPositions response — and
`get_open_trades` issues an OpenPositions query (`trader.py:95`), whose
response never carries a `trades` key — `get_open_trades` returns the
default empty list, so no caller can observe an open trade through it. -/
theorem get_open_trades_always_empty (resp : Json)
    (h : WellFormedOpenPositionsResponse resp) :
    get_open_trades resp = Json.arr [] := by
  obtain ⟨fields, rfl, hkeys⟩ := h
  show (jsonGet fields "trades").getD (Json.arr []) = Json.arr []
  rw [jsonGet_trades_none fields hkeys]
  rfl

/-- C9 witness: the empty-trades theorem applied to a response holding a
position for the traded instrument. -/
theorem get_open_trades_always_empty_witness :
    get_open_trades (Json.obj
      [("positions", Json.arr [Json.str "EUR_USD 1000 long"]),
       ("lastTransactionID", Json.str "1024")]) = Json.arr [] :=
  get_open_trades_always_empty _
    ⟨[("positions", Json.arr [Json.str "EUR_USD 1000 long"]),
      ("lastTransactionID", Json.str "1024")], rfl, by
      intro kv hkv
      rcases List.mem_cons.mp hkv with h | h
      · rw [h]; decide
      · rcases List.mem_cons.mp h with h | h
        · rw [h]; decide
        · exact absurd h (by simp)⟩

/-- C10: a stage that raises is skipped — the pipeline result equals
running the later stages on the frame the earlier, successful stages
produced; the failure never propagates (the fold is total). -/
theorem apply_indicators_skips_failed_stage {α β : Type}
    (fs gs : List (α → β → Option α)) (params : β) (df : α) :
    apply_indicators (fs ++ (fun _ _ => (none : Option α)) :: gs) params df =
      apply_indicators gs params (apply_indicators fs params df) := by
  induction fs generalizing df with
  | nil => rfl
  | cons f rest ih =>
    show apply_indicators (rest ++ _ :: gs) params _ = _
    rw [ih]
    rfl

end Finance
